import Mathlib

/-!
Verification of `scripts/add_factory_to_extra_images.py` (Pixelix).

The script is a PlatformIO pre-upload hook: it parses a partition-table CSV
file, resolves a configured factory binary, looks up the offset of the
partition named "factory", and registers the `(offset, image)` pair in the
build environment's `FLASH_EXTRA_IMAGES` list, raising a fatal exception on
the two missing-data conditions.

The embedding below mirrors the Python source:
- strings are Lean `String`; the Python string helpers `strip`, `split(",")`
  and `startswith("#")` are modelled by structural recursion over the
  character list (`pyStripL`, `pySplit`, `startsWithHash`), matching CPython
  semantics on ASCII input;
- the filesystem is an oracle `isFile : String → Bool`; the file contents are
  a list of lines;
- printed diagnostics are collected in a list;
- the mutable Python variable `factory_offset`, initialised to the *int* `0`
  and overwritten with *string* offsets inside the loop, is modelled as an
  `Option String` (`none` = still the integer 0).  The Python test
  `factory_offset != 0` compares a string with the int `0`, which is `True`
  for every string (including `"0"`), so it is exactly an `isSome` test.
-/

/-- One row of the partition table, as built by `get_partition_table`:
`{"name": parts[0], "type": parts[1], "subtype": parts[2],
  "offset": parts[3], "size": parts[4], "flags": parts[5] if len(parts) > 5 else ""}`. -/
structure Partition where
  name : String
  type : String
  subtype : String
  offset : String
  size : String
  flags : String
deriving DecidableEq, Repr

/-- `FACTORY_PARTITION_NAME = "factory"`. -/
def FACTORY_PARTITION_NAME : String := "factory"

/-- Python `str.strip()` on a character list: drop leading and trailing
whitespace. -/
def pyStripL (cs : List Char) : List Char :=
  ((cs.dropWhile Char.isWhitespace).reverse.dropWhile Char.isWhitespace).reverse

/-- Python `str.strip()`. -/
def pyStrip (s : String) : String :=
  String.mk (pyStripL s.data)

/-- Python `str.split(sep)` for a one-character separator: split on *every*
occurrence, so `"".split(",") == [""]` and `",".split(",") == ["", ""]`. -/
def pySplit (sep : Char) : List Char → List (List Char)
  | [] => [[]]
  | c :: rest =>
    if c = sep then [] :: pySplit sep rest
    else
      match pySplit sep rest with
      | [] => [[c]]
      | h :: t => (c :: h) :: t

/-- Python `line.startswith("#")`. -/
def startsWithHash (s : String) : Bool :=
  match s.data with
  | [] => false
  | c :: _ => c = '#'

/-- `[x.strip() for x in line.split(",")]` applied to the stripped line. -/
def lineFields (line : String) : List String :=
  (pySplit ',' (pyStrip line).data).map (fun cs => String.mk (pyStripL cs))

/-- The per-line body of the loop in `get_partition_table`:
strip the line, skip comments/blank lines, split on commas, skip lines with
fewer than 5 fields, otherwise build the `Partition` record. -/
def parseLine (line : String) : Option Partition :=
  let l := pyStrip line
  if l = "" ∨ startsWithHash l = true then none
  else
    match lineFields line with
    | nm :: ty :: sub :: off :: sz :: rest =>
      some { name := nm, type := ty, subtype := sub, offset := off, size := sz,
             flags := rest.headD "" }
    | _ => none

/-- The loop of `get_partition_table` over all lines of the open file. -/
def parseLines (lines : List String) : List Partition :=
  lines.filterMap parseLine

/-- The diagnostic printed to `sys.stderr` when the partition table file is
missing. -/
def noTableDiag : String := "No partition table found or PARTITIONS_TABLE_CSV not set."

/-- `get_partition_table`: returns the parsed table and the list of printed
diagnostics.  Guard mirrors
`if partition_table_file_name and os.path.isfile(partition_table_file_name):`. -/
def get_partition_table (isFile : String → Bool) (fileName : String)
    (lines : List String) : List Partition × List String :=
  if fileName ≠ "" ∧ isFile fileName = true then (parseLines lines, [])
  else ([], [noTableDiag])

/-- `PROJECT_DIR + "/" + env.BoardConfig().get("build.partitions")`. -/
def partitionTableFileName (projectDir buildPartitions : String) : String :=
  projectDir ++ "/" ++ buildPartitions

/-- POSIX `os.path.join(a, b)` for two components. -/
def osPathJoin (a b : String) : String :=
  if b.data.head? = some '/' then b
  else if a = "" ∨ a.data.getLast? = some '/' then a ++ b
  else a ++ "/" ++ b

/-- `get_factory_image`: returns the resolved image (or `none`) and the list
of printed diagnostics. -/
def get_factory_image (isFile : String → Bool)
    (projectDir factoryBinary envName : String) : Option String × List String :=
  if factoryBinary ≠ "" then
    let factory_image := osPathJoin projectDir factoryBinary
    if isFile factory_image = true then (some factory_image, [])
    else (none, ["Factory binary: " ++ factory_image ++ " does not exist!"])
  else (none, ["No factory binary specified for environment: " ++ envName ++ "!"])

/-- The search loop of the main block:
`factory_offset = 0; for partition in partition_table: if partition["name"] ==
FACTORY_PARTITION_NAME: factory_offset = partition["offset"]`.
`none` models the initial int `0`; every match overwrites. -/
def factoryOffset (pt : List Partition) : Option String :=
  pt.foldl
    (fun acc p => if p.name = FACTORY_PARTITION_NAME then some p.offset else acc)
    none

/-- Terminal outcome of the main upload block: either `env.Append` was called
with one `(offset, image)` pair, or an exception was raised with a message. -/
inductive Outcome where
  | registered (entry : String × String)
  | fatal (msg : String)
deriving DecidableEq, Repr

/-- The branching of the main upload block after `get_factory_image` and
`get_partition_table` have run.  The Python test `factory_offset != 0`
compares a string with the int `0`, hence is true iff the loop assigned
(i.e. iff `factoryOffset` is `some`). -/
def mainUpload (img? : Option String) (pt : List Partition) : Outcome :=
  match img? with
  | none => Outcome.fatal "No factory image found!"
  | some img =>
    match factoryOffset pt with
    | none => Outcome.fatal ("No offset found for partition: " ++ FACTORY_PARTITION_NAME ++ "!")
    | some off => Outcome.registered (off, img)

/-- Effect of the outcome on the `FLASH_EXTRA_IMAGES` list: `env.Append` adds
exactly the one pair, a raise leaves the list untouched. -/
def applyOutcome (extras : List (String × String)) : Outcome → List (String × String)
  | Outcome.registered e => extras ++ [e]
  | Outcome.fatal _ => extras

/-- Spec-side description of an accepted data line: nonempty after stripping,
not a comment, and at least 5 comma-separated trimmed fields. -/
def acceptedLine (line : String) : Bool :=
  !(pyStrip line == "") && !(startsWithHash (pyStrip line))
    && decide (5 ≤ (lineFields line).length)

/-- Spec-side record built from the fields of a line (fields 0-4, flags from
field 5 when present, else empty). -/
def mkRecord (line : String) : Partition :=
  { name := (lineFields line).getD 0 ""
    type := (lineFields line).getD 1 ""
    subtype := (lineFields line).getD 2 ""
    offset := (lineFields line).getD 3 ""
    size := (lineFields line).getD 4 ""
    flags := (lineFields line).getD 5 "" }

/-! ## Helper lemmas -/

/-- The loop body of `get_partition_table` either skips a line or produces
exactly the record described by `mkRecord`, depending on `acceptedLine`. -/
theorem parseLine_eq_ite (line : String) :
    parseLine line = if acceptedLine line = true then some (mkRecord line) else none := by
  unfold parseLine acceptedLine mkRecord
  by_cases h1 : pyStrip line = ""
  · simp [h1]
  · by_cases h2 : startsWithHash (pyStrip line) = true
    · simp [h1, h2]
    · rcases hp : lineFields line with _ | ⟨a, _ | ⟨b, _ | ⟨c, _ | ⟨d, _ | ⟨e, rest⟩⟩⟩⟩⟩ <;>
        simp [h1, h2, hp, List.getD]
      cases rest <;> simp

theorem find?_append_last (l : List α) (x : α) (p : α → Bool) :
    (l ++ [x]).find? p =
      match l.find? p with
      | some r => some r
      | none => if p x then some x else none := by
  induction l with
  | nil => cases h : p x <;> simp [List.find?, h]
  | cons a t ih =>
    by_cases h : p a = true
    · simp [List.find?, h]
    · simp only [Bool.not_eq_true] at h
      simp [List.find?, h, ih]

/-- The overwrite-on-match loop computes the *last* matching record, i.e. the
first match of the reversed list; the initial accumulator survives only when
no record matches. -/
theorem foldl_overwrite_eq_find?_reverse (q : Partition → Bool)
    (f : Partition → Option String) (pt : List Partition) (acc : Option String) :
    pt.foldl (fun a p => if q p = true then f p else a) acc =
      match pt.reverse.find? q with
      | some r => f r
      | none => acc := by
  induction pt generalizing acc with
  | nil => simp
  | cons p rest ih =>
    simp only [List.foldl_cons, List.reverse_cons, ih, find?_append_last]
    by_cases h : q p = true <;>
      cases hf : rest.reverse.find? q <;> simp [h, hf]

/-- `factoryOffset` is the offset of the last record named `"factory"`. -/
theorem factoryOffset_eq (pt : List Partition) :
    factoryOffset pt =
      match pt.reverse.find? (fun q => q.name = FACTORY_PARTITION_NAME) with
      | some r => some r.offset
      | none => none := by
  have h := foldl_overwrite_eq_find?_reverse
    (fun q => decide (q.name = FACTORY_PARTITION_NAME))
    (fun p => some p.offset) pt none
  unfold factoryOffset
  simpa using h

/-! ## Claim theorems -/

/-- C4: the reader emits exactly one record per non-comment, non-blank line
with at least 5 trimmed comma-separated fields, in file order, built from
fields 0-4 (and 5 when present); a line with fewer than 5 fields yields no
record. -/
theorem partition_reader_records :
    (∀ lines : List String,
        parseLines lines = (lines.filter acceptedLine).map mkRecord) ∧
    (∀ line : String, (lineFields line).length < 5 → parseLine line = none) := by
  constructor
  · intro lines
    induction lines with
    | nil => rfl
    | cons l t ih =>
      simp only [parseLines, List.filterMap_cons, List.filter_cons,
        parseLine_eq_ite] at ih ⊢
      cases h : acceptedLine l <;> simp [h, ih]
  · intro line hlt
    rw [parseLine_eq_ite]
    have hn : ¬ (5 ≤ (lineFields line).length) := by omega
    simp [acceptedLine, hn]

/-- C4 witness: a 3-field line produces no record. -/
theorem partition_reader_records_witness : parseLine "a,b,c" = none :=
  partition_reader_records.2 "a,b,c" (by decide)

/-- C5: an accepted line with exactly 5 fields gives `flags = ""`; an accepted
line with 6 or more fields gives `flags` equal to the 6th field. -/
theorem flags_from_sixth_field (line : String) (r : Partition)
    (h : parseLine line = some r) :
    ((lineFields line).length = 5 → r.flags = "") ∧
    (6 ≤ (lineFields line).length → r.flags = (lineFields line).getD 5 "") := by
  rw [parseLine_eq_ite] at h
  by_cases ha : acceptedLine line = true
  · rw [if_pos ha] at h
    have hr : r = mkRecord line := by injection h with h; exact h.symm
    subst hr
    constructor
    · intro h5
      show (lineFields line).getD 5 "" = ""
      rw [List.getD_eq_default]
      omega
    · intro _
      rfl
  · rw [if_neg ha] at h
    cases h

/-- C5 witness: a 5-field line yields empty flags. -/
theorem flags_from_sixth_field_witness : (mkRecord "n,t,s,o,sz").flags = "" :=
  (flags_from_sixth_field "n,t,s,o,sz" (mkRecord "n,t,s,o,sz") (by decide)).1 (by decide)

/-- C6: a line that is blank after stripping, or whose stripped content starts
with `#`, never produces a record — regardless of how many fields it would
split into. -/
theorem comment_and_blank_lines_skipped (line : String)
    (h : pyStrip line = "" ∨ startsWithHash (pyStrip line) = true) :
    parseLine line = none := by
  rw [parseLine_eq_ite]
  rcases h with h | h
  · simp [acceptedLine, h]
  · simp [acceptedLine, h]

/-- C6 witness: a comment line with six fields still yields no record. -/
theorem comment_and_blank_lines_skipped_witness :
    parseLine "  # n,t,s,o,sz,f" = none :=
  comment_and_blank_lines_skipped "  # n,t,s,o,sz,f" (Or.inr (by decide))

/-- C7: when the file-existence check fails, the reader returns the empty
table together with the diagnostic, without failing. -/
theorem missing_table_file_empty_result (isFile : String → Bool)
    (fileName : String) (lines : List String) (h : isFile fileName = false) :
    get_partition_table isFile fileName lines = ([], [noTableDiag]) := by
  simp [get_partition_table, h]

/-- C7 witness. -/
theorem missing_table_file_empty_result_witness :
    get_partition_table (fun _ => false) "/proj/partitions.csv"
      ["factory, app, factory, 0x10000, 0x100000"] = ([], [noTableDiag]) :=
  missing_table_file_empty_result (fun _ => false) "/proj/partitions.csv"
    ["factory, app, factory, 0x10000, 0x100000"] rfl

/-- C10: the path handed to the file-existence check is
`PROJECT_DIR + "/" + build.partitions`, hence never empty, so the guard of
`get_partition_table` degenerates to the `isFile` test alone. -/
theorem table_path_nonempty_isFile_decides (projectDir buildPartitions : String) :
    0 < (partitionTableFileName projectDir buildPartitions).length ∧
    ∀ (isFile : String → Bool) (lines : List String),
      get_partition_table isFile (partitionTableFileName projectDir buildPartitions) lines =
        if isFile (partitionTableFileName projectDir buildPartitions) = true
        then (parseLines lines, []) else ([], [noTableDiag]) := by
  have hone : ("/" : String).length = 1 := rfl
  have hlen : 0 < (partitionTableFileName projectDir buildPartitions).length := by
    simp [partitionTableFileName, String.length_append, hone]
  have hne : partitionTableFileName projectDir buildPartitions ≠ "" := by
    intro h
    rw [h] at hlen
    simp at hlen
  refine ⟨hlen, fun isFile lines => ?_⟩
  by_cases hf : isFile (partitionTableFileName projectDir buildPartitions) = true
  · simp [get_partition_table, hne, hf]
  · simp [get_partition_table, hne, hf]

/-- C3: with an empty configured binary option, or a resolved path that is not
an existing file, the resolver returns `none` after printing one diagnostic,
and the run raises the "No factory image found!" error without touching the
extra-images list. -/
theorem no_factory_image_fatal (isFile : String → Bool)
    (projectDir factoryBinary envName : String) (pt : List Partition)
    (extras : List (String × String))
    (h : factoryBinary = "" ∨ isFile (osPathJoin projectDir factoryBinary) = false) :
    (get_factory_image isFile projectDir factoryBinary envName).1 = none ∧
    (get_factory_image isFile projectDir factoryBinary envName).2.length = 1 ∧
    mainUpload (get_factory_image isFile projectDir factoryBinary envName).1 pt =
      Outcome.fatal "No factory image found!" ∧
    applyOutcome extras
      (mainUpload (get_factory_image isFile projectDir factoryBinary envName).1 pt) =
      extras := by
  have hnone : (get_factory_image isFile projectDir factoryBinary envName).1 = none ∧
      (get_factory_image isFile projectDir factoryBinary envName).2.length = 1 := by
    by_cases hb : factoryBinary = ""
    · simp [get_factory_image, hb]
    · rcases h with h | h
      · exact absurd h hb
      · simp [get_factory_image, hb, h]
  refine ⟨hnone.1, hnone.2, ?_, ?_⟩ <;> rw [hnone.1] <;> rfl

/-- C3 witness: filesystem with no files, configured binary `factory.bin`. -/
theorem no_factory_image_fatal_witness :
    (get_factory_image (fun _ => false) "/proj" "factory.bin" "esp32").1 = none ∧
    (get_factory_image (fun _ => false) "/proj" "factory.bin" "esp32").2.length = 1 ∧
    mainUpload (get_factory_image (fun _ => false) "/proj" "factory.bin" "esp32").1 [] =
      Outcome.fatal "No factory image found!" ∧
    applyOutcome []
      (mainUpload (get_factory_image (fun _ => false) "/proj" "factory.bin" "esp32").1 []) =
      [] :=
  no_factory_image_fatal (fun _ => false) "/proj" "factory.bin" "esp32" [] []
    (Or.inr rfl)

/-- C2: when the linear search settles on a record named `"factory"` (the last
such record) and its offset is non-zero, exactly one entry is appended, namely
the pair of that record's offset string and the resolved image path. -/
theorem factory_record_registered (img : String) (pt : List Partition)
    (p : Partition) (extras : List (String × String))
    (hlast : pt.reverse.find? (fun q => q.name = FACTORY_PARTITION_NAME) = some p)
    ( _hoff : p.offset ≠ "0") :
    mainUpload (some img) pt = Outcome.registered (p.offset, img) ∧
    applyOutcome extras (mainUpload (some img) pt) = extras ++ [(p.offset, img)] := by
  have hoffset : factoryOffset pt = some p.offset := by
    rw [factoryOffset_eq, hlast]
  constructor
  · simp [mainUpload, hoffset]
  · simp [mainUpload, hoffset, applyOutcome]

/-- C2 witness: a two-row table whose second row is the factory partition. -/
theorem factory_record_registered_witness :
    mainUpload (some "/proj/factory.bin")
        [{ name := "nvs", type := "data", subtype := "nvs", offset := "0x9000",
           size := "0x5000", flags := "" },
         { name := "factory", type := "app", subtype := "factory",
           offset := "0x10000", size := "0x100000", flags := "" }] =
      Outcome.registered ("0x10000", "/proj/factory.bin") ∧
    applyOutcome []
      (mainUpload (some "/proj/factory.bin")
        [{ name := "nvs", type := "data", subtype := "nvs", offset := "0x9000",
           size := "0x5000", flags := "" },
         { name := "factory", type := "app", subtype := "factory",
           offset := "0x10000", size := "0x100000", flags := "" }]) =
      [("0x10000", "/proj/factory.bin")] :=
  factory_record_registered "/proj/factory.bin"
    [{ name := "nvs", type := "data", subtype := "nvs", offset := "0x9000",
       size := "0x5000", flags := "" },
     { name := "factory", type := "app", subtype := "factory",
       offset := "0x10000", size := "0x100000", flags := "" }]
    { name := "factory", type := "app", subtype := "factory",
      offset := "0x10000", size := "0x100000", flags := "" }
    [] (by decide) (by decide)

/-- C9: with two or more records named `"factory"`, the offset registered is
that of the last such record in file order (the loop overwrites on every
match). -/
theorem last_factory_record_wins (pt : List Partition) (img : String)
    (p : Partition)
    ( _htwo : 2 ≤ (pt.filter (fun q => q.name = FACTORY_PARTITION_NAME)).length)
    (hlast : pt.reverse.find? (fun q => q.name = FACTORY_PARTITION_NAME) = some p) :
    mainUpload (some img) pt = Outcome.registered (p.offset, img) := by
  have hoffset : factoryOffset pt = some p.offset := by
    rw [factoryOffset_eq, hlast]
  simp [mainUpload, hoffset]

/-- C9 witness: two factory rows with different offsets; the second wins. -/
theorem last_factory_record_wins_witness :
    mainUpload (some "/proj/factory.bin")
        [{ name := "factory", type := "app", subtype := "factory",
           offset := "0x10000", size := "0x100000", flags := "" },
         { name := "factory", type := "app", subtype := "factory",
           offset := "0x200000", size := "0x100000", flags := "" }] =
      Outcome.registered ("0x200000", "/proj/factory.bin") :=
  last_factory_record_wins
    [{ name := "factory", type := "app", subtype := "factory",
       offset := "0x10000", size := "0x100000", flags := "" },
     { name := "factory", type := "app", subtype := "factory",
       offset := "0x200000", size := "0x100000", flags := "" }]
    "/proj/factory.bin"
    { name := "factory", type := "app", subtype := "factory",
      offset := "0x200000", size := "0x100000", flags := "" }
    (by decide) (by decide)

/-- C8: every run of the upload block ends in exactly one of the two terminal
outcomes; a fatal raise leaves the extra-images list unchanged, a registration
appends exactly one entry. -/
theorem registration_and_raise_exclusive (img? : Option String)
    (pt : List Partition) (extras : List (String × String)) :
    (∃ msg, mainUpload img? pt = Outcome.fatal msg ∧
        applyOutcome extras (mainUpload img? pt) = extras) ∨
    (∃ e, mainUpload img? pt = Outcome.registered e ∧
        applyOutcome extras (mainUpload img? pt) = extras ++ [e]) := by
  cases img? with
  | none => exact Or.inl ⟨"No factory image found!", rfl, rfl⟩
  | some img =>
    cases h : factoryOffset pt with
    | none =>
      refine Or.inl ⟨"No offset found for partition: " ++ FACTORY_PARTITION_NAME ++ "!", ?_, ?_⟩ <;>
        simp [mainUpload, h, applyOutcome]
    | some off =>
      refine Or.inr ⟨(off, img), ?_, ?_⟩ <;> simp [mainUpload, h, applyOutcome]

/-- C1 counterexample: a factory record whose offset string is `"0"` does NOT
raise — the Python test `factory_offset != 0` compares the string `"0"` with
the int `0` and is true, so the run registers `("0", image)`. -/
theorem factory_offset_zero_still_registers :
    mainUpload (some "/proj/factory.bin")
        [{ name := "factory", type := "app", subtype := "factory",
           offset := "0", size := "0x100000", flags := "" }] =
      Outcome.registered ("0", "/proj/factory.bin") ∧
    applyOutcome []
      (mainUpload (some "/proj/factory.bin")
        [{ name := "factory", type := "app", subtype := "factory",
           offset := "0", size := "0x100000", flags := "" }]) =
      [("0", "/proj/factory.bin")] := by
  decide

/-- C1 (amended): with a factory image resolved, the run raises the fatal
error mentioning the partition name `"factory"` — leaving the extra-images
list untouched — exactly when NO record named `"factory"` exists; an offset
string of `"0"` does not count as missing. -/
theorem no_factory_partition_fatal (img : String) (pt : List Partition)
    (extras : List (String × String))
    (h : pt.filter (fun q => q.name = FACTORY_PARTITION_NAME) = []) :
    (∃ pre post,
        mainUpload (some img) pt =
          Outcome.fatal (pre ++ FACTORY_PARTITION_NAME ++ post)) ∧
    applyOutcome extras (mainUpload (some img) pt) = extras := by
  have hall : ∀ q ∈ pt, ¬(q.name = FACTORY_PARTITION_NAME) := by
    intro q hq hname
    have hmem : q ∈ pt.filter (fun q => q.name = FACTORY_PARTITION_NAME) :=
      List.mem_filter.2 ⟨hq, by simp [hname]⟩
    rw [h] at hmem
    cases hmem
  have hfind : pt.reverse.find? (fun q => q.name = FACTORY_PARTITION_NAME) = none := by
    rw [List.find?_eq_none]
    intro q hq
    simpa using hall q (List.mem_reverse.1 hq)
  have hoffset : factoryOffset pt = none := by
    rw [factoryOffset_eq, hfind]
  refine ⟨⟨"No offset found for partition: ", "!", ?_⟩, ?_⟩
  · simp [mainUpload, hoffset]
  · simp [mainUpload, hoffset, applyOutcome]

/-- C1 (amended) witness: a table with only an `nvs` row. -/
theorem no_factory_partition_fatal_witness :
    (∃ pre post,
        mainUpload (some "/proj/factory.bin")
            [{ name := "nvs", type := "data", subtype := "nvs",
               offset := "0x9000", size := "0x5000", flags := "" }] =
          Outcome.fatal (pre ++ FACTORY_PARTITION_NAME ++ post)) ∧
    applyOutcome []
      (mainUpload (some "/proj/factory.bin")
        [{ name := "nvs", type := "data", subtype := "nvs",
           offset := "0x9000", size := "0x5000", flags := "" }]) = [] :=
  no_factory_partition_fatal "/proj/factory.bin"
    [{ name := "nvs", type := "data", subtype := "nvs",
       offset := "0x9000", size := "0x5000", flags := "" }]
    [] (by decide)
